import Mathlib

/-!
Shallow embedding of the crabs-exploration tracker-evaluation core and of two
utility functions of the repository, with theorems checking the specification
claims against them.

The tracker-evaluation core (geometry, frame matcher, identity-continuity
analyzer, MOTA aggregator) is not present in the source tree; only its unit
tests are. Those components are therefore modelled from the specification
text, and their definitions carry a doc comment starting with
`Modelled from the spec:`. The utility functions `collate_fn` and
`read_json_file` are translated directly from the source files
`crabs/detection_tracking/detection_utils.py` and `bboxes_labelling/utils.py`.

Real-valued quantities (box coordinates, IOU values, MOTA scores, confidence
scores) are modelled with rational numbers.
-/

namespace CrabsTracker

/-- Modelled from the spec: an axis-aligned bounding box with four real-valued
coordinates (xmin, ymin, xmax, ymax); section 3 DATA MODEL. The tracker core
is missing from the source tree, so this follows the spec text. -/
structure Box where
  xmin : ℚ
  ymin : ℚ
  xmax : ℚ
  ymax : ℚ
deriving DecidableEq, Repr

/-- Area of an axis-aligned box. -/
def area (a : Box) : ℚ := (a.xmax - a.xmin) * (a.ymax - a.ymin)

/-- Modelled from the spec: intersection area of two axis-aligned boxes, with
negative intersection dimensions clamped to zero (section 4.1: the function
may clamp negative intersection dimensions to zero rather than erroring). -/
def interArea (a b : Box) : ℚ :=
  max (min a.xmax b.xmax - max a.xmin b.xmin) 0 *
    max (min a.ymax b.ymax - max a.ymin b.ymin) 0

/-- Modelled from the spec: `iou(box_a, box_b)`, intersection area over union
area; returns 0 when the union area is 0 to avoid division by zero
(section 4.1 Geometry module; the function itself is absent from src). -/
def iou (a b : Box) : ℚ :=
  let i := interArea a b
  let u := area a + area b - i
  if u = 0 then 0 else i / u

theorem interArea_nonneg (a b : Box) : 0 ≤ interArea a b :=
  mul_nonneg (le_max_right _ _) (le_max_right _ _)

theorem interArea_comm (a b : Box) : interArea a b = interArea b a := by
  unfold interArea
  rw [min_comm a.xmax, max_comm a.xmin, min_comm a.ymax, max_comm a.ymin]

theorem interArea_le_area_left (a b : Box)
    (hx : a.xmin < a.xmax) (hy : a.ymin < a.ymax) :
    interArea a b ≤ area a := by
  unfold interArea area
  have hx1 : max (min a.xmax b.xmax - max a.xmin b.xmin) 0 ≤ a.xmax - a.xmin := by
    apply max_le
    · have h1 : min a.xmax b.xmax ≤ a.xmax := min_le_left _ _
      have h2 : a.xmin ≤ max a.xmin b.xmin := le_max_left _ _
      linarith
    · linarith
  have hy1 : max (min a.ymax b.ymax - max a.ymin b.ymin) 0 ≤ a.ymax - a.ymin := by
    apply max_le
    · have h1 : min a.ymax b.ymax ≤ a.ymax := min_le_left _ _
      have h2 : a.ymin ≤ max a.ymin b.ymin := le_max_left _ _
      linarith
    · linarith
  exact mul_le_mul hx1 hy1 (le_max_right _ _) (by linarith)

theorem interArea_le_area_right (a b : Box)
    (hx : b.xmin < b.xmax) (hy : b.ymin < b.ymax) :
    interArea a b ≤ area b := by
  rw [interArea_comm]
  exact interArea_le_area_left b a hx hy

theorem iou_of_interArea_eq_zero (a b : Box) (h : interArea a b = 0) :
    iou a b = 0 := by
  unfold iou
  simp only [h]
  split
  · rfl
  · simp

/-- C8: properties of the geometry module. IOU is symmetric; a non-degenerate
box has IOU 1 with itself; for well-formed boxes the IOU lies in the interval
from 0 to 1; boxes disjoint along an axis have IOU 0; and a zero-area box
(with ordered coordinates) has IOU 0 with any box. -/
theorem iou_contract :
    (∀ a b : Box, iou a b = iou b a) ∧
    (∀ a : Box, a.xmin < a.xmax → a.ymin < a.ymax → iou a a = 1) ∧
    (∀ a b : Box, a.xmin < a.xmax → a.ymin < a.ymax →
      b.xmin < b.xmax → b.ymin < b.ymax → 0 ≤ iou a b ∧ iou a b ≤ 1) ∧
    (∀ a b : Box,
      (min a.xmax b.xmax ≤ max a.xmin b.xmin ∨
       min a.ymax b.ymax ≤ max a.ymin b.ymin) → iou a b = 0) ∧
    (∀ a b : Box, a.xmin ≤ a.xmax → a.ymin ≤ a.ymax → area a = 0 →
      iou a b = 0) := by
  have hdisj : ∀ a b : Box,
      (min a.xmax b.xmax ≤ max a.xmin b.xmin ∨
       min a.ymax b.ymax ≤ max a.ymin b.ymin) → iou a b = 0 := by
    intro a b h
    apply iou_of_interArea_eq_zero
    unfold interArea
    rcases h with h | h
    · have : max (min a.xmax b.xmax - max a.xmin b.xmin) 0 = 0 :=
        max_eq_right (by linarith)
      rw [this, zero_mul]
    · have : max (min a.ymax b.ymax - max a.ymin b.ymin) 0 = 0 :=
        max_eq_right (by linarith)
      rw [this, mul_zero]
  refine ⟨?_, ?_, ?_, hdisj, ?_⟩
  · intro a b
    unfold iou
    rw [interArea_comm, add_comm (area a)]
  · intro a hx hy
    have hi : interArea a a = area a := by
      unfold interArea area
      rw [min_self, max_self, min_self, max_self]
      rw [max_eq_left (by linarith), max_eq_left (by linarith)]
    have ha : area a ≠ 0 := by
      unfold area
      exact ne_of_gt (mul_pos (by linarith) (by linarith))
    unfold iou
    simp only [hi]
    have hu : area a + area a - area a = area a := by ring
    rw [hu, if_neg ha]
    exact div_self ha
  · intro a b hax hay hbx hby
    have hia : interArea a b ≤ area a := interArea_le_area_left a b hax hay
    have hib : interArea a b ≤ area b := interArea_le_area_right a b hbx hby
    have hi0 : 0 ≤ interArea a b := interArea_nonneg a b
    have hau : (0 : ℚ) < area a := by
      unfold area
      exact mul_pos (by linarith) (by linarith)
    have hu : 0 < area a + area b - interArea a b := by linarith
    unfold iou
    rw [if_neg (by linarith)]
    constructor
    · exact div_nonneg hi0 (le_of_lt hu)
    · rw [div_le_one hu]
      linarith
  · intro a b hx hy ha
    apply hdisj
    unfold area at ha
    rcases mul_eq_zero.mp ha with h | h
    · left
      have hxx : a.xmax = a.xmin := by linarith [sub_eq_zero.mp h]
      calc min a.xmax b.xmax ≤ a.xmax := min_le_left _ _
        _ = a.xmin := hxx
        _ ≤ max a.xmin b.xmin := le_max_left _ _
    · right
      have hyy : a.ymax = a.ymin := by linarith [sub_eq_zero.mp h]
      calc min a.ymax b.ymax ≤ a.ymax := min_le_left _ _
        _ = a.ymin := hyy
        _ ≤ max a.ymin b.ymin := le_max_left _ _

/-- Witness for C8: instantiates the contract at concrete boxes. -/
theorem iou_contract_witness :
    iou ⟨10, 10, 20, 20⟩ ⟨10, 10, 20, 20⟩ = 1 ∧
    iou ⟨10, 10, 20, 20⟩ ⟨30, 30, 40, 40⟩ = 0 := by
  constructor
  · exact iou_contract.2.1 ⟨10, 10, 20, 20⟩ (by norm_num) (by norm_num)
  · exact iou_contract.2.2.2.1 ⟨10, 10, 20, 20⟩ ⟨30, 30, 40, 40⟩
      (Or.inl (by norm_num))

/-- Modelled from the spec: an IdentityMap maps each GT-id to either a
track-id or a sentinel missing value, for one frame (section 3 DATA MODEL).
The source uses a NaN marker for missing; the spec itself says a
reimplementation should use an explicit optional id, which is what
`Option Nat` is: `none` is the missing sentinel. -/
abbrev IdentityMap : Type := List (Nat × Option Nat)

/-- True when some GT-id owns track-id `t` in the map `prev`. -/
def trackOwned (prev : IdentityMap) (t : Nat) : Bool :=
  prev.any (fun p => p.2 == some t)

/-- True when a GT-id other than `g` owns track-id `t` in `prev` and that
GT-id is absent from `curr`. -/
def trackOwnedByDisappeared (prev curr : IdentityMap) (g t : Nat) : Bool :=
  prev.any (fun p =>
    p.1 != g && p.2 == some t && (curr.lookup p.1).isNone)

/-- Modelled from the spec: the per-GT-id switch classification of
section 4.3, the Identity-Continuity Analyzer (the analyzer itself is absent
from src; only its unit tests survive). For the GT-id `g`, the outer `Option`
of each lookup is presence in the map, the inner `Option` is the missing
sentinel. The branches follow the spec rules: same concrete id, no switch;
differing concrete ids, one switch; a side that is missing contributes no
switch by itself, except that a GT-id re-acquiring a track-id previously
owned by a different, now-disappeared GT-id is flagged as a switch; a
disappearing GT-id contributes nothing on its own; an appearing GT-id whose
concrete track-id was owned by another GT-id in the previous frame counts as
one switch (sections 4.3 and 8, scenario table). -/
def switchContribution (prev curr : IdentityMap) (g : Nat) : Nat :=
  match prev.lookup g, curr.lookup g with
  | some (some t1), some (some t2) => if t1 = t2 then 0 else 1
  | some (some _), some none => 0
  | some none, some (some t2) =>
      if trackOwnedByDisappeared prev curr g t2 then 1 else 0
  | some none, some none => 0
  | some _, none => 0
  | none, some (some t2) => if trackOwned prev t2 then 1 else 0
  | none, some none => 0
  | none, none => 0

/-- GT-ids appearing in either of two consecutive maps, first occurrences
kept in order. -/
def keysUnion (prev curr : IdentityMap) : List Nat :=
  (prev.map Prod.fst ++ curr.map Prod.fst).dedup

/-- Modelled from the spec:
`count_identity_switches(prev_map, curr_map)` of section 4.3. A previous map
of `none` is the very-first-frame case and returns 0 unconditionally;
otherwise the per-GT-id contributions are summed over every GT-id appearing
in either map. -/
def count_identity_switches (prevMap : Option IdentityMap)
    (currMap : IdentityMap) : Nat :=
  match prevMap with
  | none => 0
  | some p => ((keysUnion p currMap).map (switchContribution p currMap)).sum

/-! Sanity checks: the parametrized rows of `test_count_identity_switches`
in `tests/test_unit/test_evaluate_tracker.py`, with the NaN sentinel
rendered as `none`. -/

example : count_identity_switches none
    [(1, some 11), (2, some 12), (3, some 13), (4, some 14)] = 0 := by decide

example : count_identity_switches
    (some [(1, some 11), (2, some 12), (3, some 13), (4, some 14)])
    [(1, some 11), (2, some 12), (3, some 13), (4, some 14)] = 0 := by decide

example : count_identity_switches
    (some [(1, some 11), (2, some 12), (3, some 13), (4, some 14)])
    [(1, some 11), (2, some 12), (3, none), (4, some 14)] = 0 := by decide

example : count_identity_switches
    (some [(1, some 11), (2, some 12), (3, none), (4, some 14)])
    [(1, some 11), (2, some 12), (3, some 13), (4, some 14)] = 0 := by decide

example : count_identity_switches
    (some [(1, some 11), (2, some 12), (3, some 13), (4, some 14)])
    [(1, some 11), (2, some 12), (3, some 15), (4, some 14)] = 1 := by decide

example : count_identity_switches
    (some [(1, some 11), (2, some 12), (3, some 13), (4, some 14)])
    [(1, some 11), (2, some 12), (3, some 14)] = 1 := by decide

example : count_identity_switches
    (some [(1, some 11), (2, some 12), (3, some 13)])
    [(1, some 11), (2, some 12), (4, some 13)] = 1 := by decide

example : count_identity_switches
    (some [(1, some 11), (2, some 12), (3, some 13)])
    [(1, some 11), (2, some 12), (3, some 99), (4, some 13)] = 2 := by decide

example : count_identity_switches
    (some [(1, some 11), (2, some 12), (3, some 13), (4, some 14)])
    [(1, some 11), (2, some 12), (3, some 14), (4, some 13)] = 2 := by decide

example : count_identity_switches
    (some [(1, some 11), (2, some 12), (3, some 13), (4, some 14)])
    [(1, some 11), (2, some 12), (3, some 13)] = 0 := by decide

example : count_identity_switches
    (some [(1, some 11), (2, some 12), (3, some 13), (4, some 14)])
    [(1, some 11), (2, some 12), (3, some 13), (5, some 14)] = 1 := by decide

example : count_identity_switches
    (some [(1, some 11), (2, some 12), (3, some 13), (4, none)])
    [(1, some 11), (2, some 12), (3, some 13)] = 0 := by decide

example : count_identity_switches
    (some [(1, some 11), (2, some 12), (3, some 13), (4, none)])
    [(1, some 11), (2, some 12), (3, some 13), (5, none)] = 0 := by decide

example : count_identity_switches
    (some [(1, some 11), (2, some 12), (3, some 13), (4, none)])
    [(1, some 11), (2, some 12), (3, none)] = 0 := by decide

example : count_identity_switches
    (some [(1, some 11), (2, some 12), (3, some 13)])
    [(1, some 11), (2, some 12), (3, some 13), (4, some 14)] = 0 := by decide

example : count_identity_switches
    (some [(1, some 11), (2, some 12), (3, some 14)])
    [(1, some 11), (2, some 12), (3, some 13), (4, some 14)] = 2 := by decide

example : count_identity_switches
    (some [(1, some 11), (2, some 12), (3, some 13)])
    [(1, some 11), (2, some 12), (3, some 13), (4, none)] = 0 := by decide

example : count_identity_switches
    (some [(1, some 11), (2, some 12), (3, some 13), (5, none)])
    [(1, some 11), (2, some 12), (3, some 13), (4, none)] = 0 := by decide

example : count_identity_switches
    (some [(1, some 11), (2, some 12), (3, none)])
    [(1, some 11), (2, some 12), (3, some 13), (4, none)] = 0 := by decide

/-- C2: with a previous map of `none` (the very-first-frame case),
`count_identity_switches` returns 0 for every current map, unconditionally
and without inspecting it. -/
theorem count_identity_switches_first_frame (currMap : IdentityMap) :
    count_identity_switches none currMap = 0 := rfl

/-- C3: when two GT-ids present in both frames exchange their concrete
track-ids (a two-way swap), each of the two contributes one switch, so the
exchange counts exactly 2 switches, not 1. -/
theorem swap_counts_two (prev curr : IdentityMap) (a b t1 t2 : Nat)
    (_hab : a ≠ b) (ht : t1 ≠ t2)
    (hpa : prev.lookup a = some (some t1))
    (hpb : prev.lookup b = some (some t2))
    (hca : curr.lookup a = some (some t2))
    (hcb : curr.lookup b = some (some t1)) :
    switchContribution prev curr a = 1 ∧
      switchContribution prev curr b = 1 ∧
      switchContribution prev curr a + switchContribution prev curr b = 2 := by
  have h1 : switchContribution prev curr a = 1 := by
    unfold switchContribution
    rw [hpa, hca]
    simp [ht]
  have h2 : switchContribution prev curr b = 1 := by
    unfold switchContribution
    rw [hpb, hcb]
    simp [Ne.symm ht]
  exact ⟨h1, h2, by rw [h1, h2]⟩

/-- Witness for C3: the swap row of the unit-test table, with the combined
contribution and the total frame count both equal to 2. -/
theorem swap_counts_two_witness :
    (switchContribution
        [(1, some 11), (2, some 12), (3, some 13), (4, some 14)]
        [(1, some 11), (2, some 12), (3, some 14), (4, some 13)] 3 +
      switchContribution
        [(1, some 11), (2, some 12), (3, some 13), (4, some 14)]
        [(1, some 11), (2, some 12), (3, some 14), (4, some 13)] 4 = 2) ∧
    count_identity_switches
      (some [(1, some 11), (2, some 12), (3, some 13), (4, some 14)])
      [(1, some 11), (2, some 12), (3, some 14), (4, some 13)] = 2 := by
  constructor
  · exact (swap_counts_two
      [(1, some 11), (2, some 12), (3, some 13), (4, some 14)]
      [(1, some 11), (2, some 12), (3, some 14), (4, some 13)]
      3 4 13 14 (by decide) (by decide) (by decide) (by decide)
      (by decide) (by decide)).2.2
  · decide

/-- C4: a GT-id absent from the previous map and present in the current map,
whose track-id equals the track-id held in the previous map by a GT-id that
is absent from the current map, contributes exactly 1 switch. -/
theorem handoff_counts_one (prev curr : IdentityMap) (g gOld t : Nat)
    (hheld : (gOld, some t) ∈ prev)
    (_hgone : curr.lookup gOld = none)
    (habs : prev.lookup g = none)
    (hcur : curr.lookup g = some (some t)) :
    switchContribution prev curr g = 1 := by
  unfold switchContribution
  rw [habs, hcur]
  have howned : trackOwned prev t = true := by
    unfold trackOwned
    rw [List.any_eq_true]
    exact ⟨(gOld, some t), hheld, by simp⟩
  simp [howned]

/-- Witness for C4: the hand-off row of the unit-test table (a disappearing
GT-id 3 vacates track-id 13, appearing GT-id 4 takes it), with the total
frame count equal to 1. -/
theorem handoff_counts_one_witness :
    switchContribution
      [(1, some 11), (2, some 12), (3, some 13)]
      [(1, some 11), (2, some 12), (4, some 13)] 4 = 1 ∧
    count_identity_switches
      (some [(1, some 11), (2, some 12), (3, some 13)])
      [(1, some 11), (2, some 12), (4, some 13)] = 1 := by
  constructor
  · exact handoff_counts_one
      [(1, some 11), (2, some 12), (3, some 13)]
      [(1, some 11), (2, some 12), (4, some 13)]
      4 3 13 (by decide) (by decide) (by decide) (by decide)
  · decide

/-- C5: a GT-id whose entry is the missing sentinel in one of the two frames
and a concrete track-id in the other contributes no switch by itself: a
concrete-then-missing transition always contributes 0, and a
missing-then-concrete transition contributes 0 unless the acquired track-id
was owned in the previous frame by a different, now-disappeared GT-id (the
reassignment exception the spec itself carves out in section 4.3). -/
theorem missed_detection_no_switch (prev curr : IdentityMap) (g t : Nat) :
    (prev.lookup g = some (some t) → curr.lookup g = some none →
      switchContribution prev curr g = 0) ∧
    (prev.lookup g = some none → curr.lookup g = some (some t) →
      trackOwnedByDisappeared prev curr g t = false →
      switchContribution prev curr g = 0) := by
  constructor
  · intro hp hc
    unfold switchContribution
    rw [hp, hc]
  · intro hp hc hown
    unfold switchContribution
    rw [hp, hc]
    simp [hown]

/-- Witness for C5: the two missed-detection rows of the unit-test table
(GT-id 3 missed in the current frame, then missed in the previous frame),
with the corresponding total frame counts equal to 0. -/
theorem missed_detection_no_switch_witness :
    switchContribution
      [(1, some 11), (2, some 12), (3, some 13), (4, some 14)]
      [(1, some 11), (2, some 12), (3, none), (4, some 14)] 3 = 0 ∧
    switchContribution
      [(1, some 11), (2, some 12), (3, none), (4, some 14)]
      [(1, some 11), (2, some 12), (3, some 13), (4, some 14)] 3 = 0 ∧
    count_identity_switches
      (some [(1, some 11), (2, some 12), (3, some 13), (4, some 14)])
      [(1, some 11), (2, some 12), (3, none), (4, some 14)] = 0 := by
  refine ⟨?_, ?_, by decide⟩
  · exact (missed_detection_no_switch
      [(1, some 11), (2, some 12), (3, some 13), (4, some 14)]
      [(1, some 11), (2, some 12), (3, none), (4, some 14)] 3 13).1
      (by decide) (by decide)
  · exact (missed_detection_no_switch
      [(1, some 11), (2, some 12), (3, none), (4, some 14)]
      [(1, some 11), (2, some 12), (3, some 13), (4, some 14)] 3 13).2
      (by decide) (by decide) (by decide)

/-- Modelled from the spec: a ground-truth frame, an ordered collection of
(Box, GT-id) pairs (section 3 DATA MODEL). -/
abbrev GTFrame : Type := List (Box × Nat)

/-- Modelled from the spec: a prediction frame, an ordered collection of
(Box, track-id, confidence score) triples (section 3 DATA MODEL). The
confidence score plays no role in evaluation-time matching. -/
abbrev PredFrame : Type := List (Box × Nat × ℚ)

/-- Candidate (GT index, prediction index, IOU) triples whose IOU reaches
the threshold, listed in lexicographic index order. -/
def candList (thr : ℚ) (gts preds : List (Nat × Box)) :
    List (Nat × Nat × ℚ) :=
  gts.flatMap (fun gi => preds.filterMap (fun pj =>
    let v := iou gi.2 pj.2
    if thr ≤ v then some (gi.1, pj.1, v) else none))

/-- Preference used by the greedy selection: `d` is strictly preferred to
`c` when its IOU is higher, or the IOUs tie and its GT index is lower, or
both tie and its prediction index is lower (the deterministic tie-break of
section 4.2). -/
def isBetter (c d : Nat × Nat × ℚ) : Bool :=
  decide (c.2.2 < d.2.2) ||
    (decide (c.2.2 = d.2.2) &&
      (decide (d.1 < c.1) || (decide (d.1 = c.1) && decide (d.2.1 < c.2.1))))

/-- First maximal candidate under the greedy preference, scanning in list
order and replacing only on strict preference. -/
def pickBest (l : List (Nat × Nat × ℚ)) : Option (Nat × Nat × ℚ) :=
  l.foldl (fun acc c =>
    match acc with
    | none => some c
    | some b => if isBetter b c then some c else some b) none

/-- Modelled from the spec: the greedy highest-IOU-first rounds of
section 4.2. Each round commits the best remaining pair at or above the
threshold and removes its row and column; the fuel argument (the number of
GT boxes) bounds the number of rounds. -/
def greedyRounds (thr : ℚ) :
    Nat → List (Nat × Box) → List (Nat × Box) → List (Nat × Nat)
  | 0, _, _ => []
  | Nat.succ fuel, gts, preds =>
    match pickBest (candList thr gts preds) with
    | none => []
    | some c =>
      (c.1, c.2.1) ::
        greedyRounds thr fuel (gts.filter (fun x => x.1 != c.1))
          (preds.filter (fun x => x.1 != c.2.1))

/-- Modelled from the spec: the Frame Matcher of section 4.2 guarded by the
validation of section 7(c): a track-id appearing twice in one prediction
frame fails fast with a validation error before any matching is performed.
On success it returns the GT-indexed IdentityMap (unassigned GT boxes map to
the missing sentinel) together with the count of unmatched predictions (the
frame's false positives). -/
def matchFrame (gt : GTFrame) (pred : PredFrame) (thr : ℚ) :
    Except String (IdentityMap × Nat) :=
  if (pred.map (fun p => p.2.1)).Nodup then
    let gts := gt.enum.map (fun x => (x.1, x.2.1))
    let preds := pred.enum.map (fun x => (x.1, x.2.1))
    let asg := greedyRounds thr gt.length gts preds
    let idmap : IdentityMap := gt.enum.map (fun x =>
      (x.2.2, (asg.lookup x.1).bind (fun j => pred[j]?.map (fun p => p.2.1))))
    Except.ok (idmap, pred.length - asg.length)
  else Except.error ("duplicate track-id in prediction frame")

/-- Number of missing entries of an IdentityMap: the frame's false
negatives. -/
def falseNegCount (m : IdentityMap) : Nat :=
  (m.filter (fun p => p.2.isNone)).length

/-- Modelled from the spec:
`evaluate_mota(gt_frame, pred_frame, iou_threshold, prev_map)` of
section 4.4 (the function is absent from src; only its unit tests survive).
It runs the Frame Matcher, derives false negatives as the missing entries of
the current map, counts identity switches against the previous map, and
returns the per-frame MOTA together with the current map. A frame with no
ground-truth objects is the undefined division-by-zero case of
sections 4.4 and 7(b) and fails with the defined error. -/
def evaluate_mota (gt : GTFrame) (pred : PredFrame) (thr : ℚ)
    (prevMap : Option IdentityMap) : Except String (ℚ × IdentityMap) :=
  match matchFrame gt pred thr with
  | Except.error e => Except.error e
  | Except.ok (curr, fp) =>
    if gt.length = 0 then
      Except.error ("undefined MOTA: no ground-truth objects")
    else
      Except.ok
        (1 - (((falseNegCount curr + fp +
            count_identity_switches prevMap curr : Nat) : ℚ)) /
          ((gt.length : Nat) : ℚ), curr)

/-- Modelled from the spec: the Sequence Driver fold of sections 2 and 4.4,
accumulating the error count (false negatives + false positives + identity
switches) and the ground-truth count over the frames while threading the
previous IdentityMap. -/
def motaFold (thr : ℚ) :
    List (GTFrame × PredFrame) → Option IdentityMap →
      Except String (Nat × Nat)
  | [], _ => Except.ok (0, 0)
  | f :: rest, prevMap =>
    match matchFrame f.1 f.2 thr with
    | Except.error e => Except.error e
    | Except.ok (curr, fp) =>
      match motaFold thr rest (some curr) with
      | Except.error e => Except.error e
      | Except.ok (e2, g2) =>
        Except.ok
          (falseNegCount curr + fp + count_identity_switches prevMap curr +
            e2, f.1.length + g2)

/-- Modelled from the spec: the sequence-level MOTA of section 4.4,
`1 - sum(errors) / sum(ground_truth_counts)`, failing with the defined
error of section 7(b) when the total ground-truth count is zero. -/
def motaSequence (frames : List (GTFrame × PredFrame)) (thr : ℚ) :
    Except String ℚ :=
  match motaFold thr frames none with
  | Except.error e => Except.error e
  | Except.ok (errs, gts) =>
    if gts = 0 then Except.error ("undefined MOTA: no ground-truth objects")
    else Except.ok (1 - ((errs : Nat) : ℚ) / ((gts : Nat) : ℚ))

instance {ε α : Type} [DecidableEq ε] [DecidableEq α] :
    DecidableEq (Except ε α) := fun x y =>
  match x, y with
  | Except.error a, Except.error b =>
    if h : a = b then isTrue (by rw [h])
    else isFalse (fun hc => h (by cases hc; rfl))
  | Except.error _, Except.ok _ => isFalse (fun hc => Except.noConfusion hc)
  | Except.ok _, Except.error _ => isFalse (fun hc => Except.noConfusion hc)
  | Except.ok a, Except.ok b =>
    if h : a = b then isTrue (by rw [h])
    else isFalse (fun hc => h (by cases hc; rfl))

/-- First test box of the unit tests. -/
def tb1 : Box := ⟨10, 10, 20, 20⟩

/-- Second test box of the unit tests. -/
def tb2 : Box := ⟨30, 30, 40, 40⟩

/-- Third test box of the unit tests. -/
def tb3 : Box := ⟨50, 50, 60, 60⟩

/-- Fourth test box of the unit tests. -/
def tb4 : Box := ⟨70, 70, 80, 80⟩

/-- Zero-area box of the low-IOU unit-test rows. -/
def tbz : Box := ⟨30, 30, 30, 30⟩

/-! Sanity checks: the parametrized rows of `test_evaluate_mota` in
`tests/test_unit/test_evaluate_tracker.py` (iou threshold 1/10). -/

example : evaluate_mota [(tb1, 1), (tb2, 2), (tb3, 3)]
    [(tb1, 11, 1), (tb2, 12, 1), (tb3, 13, 1)] (1/10)
    (some [(1, some 11), (2, some 12), (3, some 13)]) =
    Except.ok (1, [(1, some 11), (2, some 12), (3, some 13)]) := by
  with_unfolding_all decide

example : evaluate_mota [(tb1, 1), (tb2, 2), (tb3, 3)]
    [(tb1, 11, 1), (tb2, 12, 1), (tb3, 13, 1)] (1/10)
    (some [(1, some 11), (12, some 2), (3, none)]) =
    Except.ok (1, [(1, some 11), (2, some 12), (3, some 13)]) := by
  with_unfolding_all decide

example : evaluate_mota [(tb1, 1), (tb2, 2), (tb3, 3)]
    [(tb1, 11, 1), (tb2, 12, 1), (tb3, 14, 1)] (1/10)
    (some [(1, some 11), (2, some 12), (3, some 13)]) =
    Except.ok (2/3, [(1, some 11), (2, some 12), (3, some 14)]) := by
  with_unfolding_all decide

example : evaluate_mota [(tb1, 1), (tb2, 2), (tb3, 4)]
    [(tb1, 11, 1), (tb2, 12, 1)] (1/10)
    (some [(1, some 11), (2, some 12), (3, some 13)]) =
    Except.ok (2/3, [(1, some 11), (2, some 12), (4, none)]) := by
  with_unfolding_all decide

example : evaluate_mota [(tb1, 1), (tb2, 2), (tb3, 3)]
    [(tb1, 11, 1), (tb2, 12, 1), (tb3, 13, 1), (tb4, 14, 1)] (1/10)
    (some [(1, some 11), (2, some 12), (3, some 13)]) =
    Except.ok (2/3, [(1, some 11), (2, some 12), (3, some 13)]) := by
  with_unfolding_all decide

example : evaluate_mota [(tb1, 1), (tb2, 2), (tb3, 3)]
    [(tb1, 11, 1), (tbz, 12, 1), (tb3, 14, 1)] (1/10)
    (some [(1, some 11), (2, some 12), (3, some 13)]) =
    Except.ok (0, [(1, some 11), (2, none), (3, some 14)]) := by
  with_unfolding_all decide

example : evaluate_mota [(tb1, 1), (tb2, 2), (tb3, 3)]
    [(tb1, 11, 1), (tbz, 14, 1), (tb3, 13, 1)] (1/10)
    (some [(1, some 11), (2, some 12), (3, some 13)]) =
    Except.ok (1/3, [(1, some 11), (2, none), (3, some 13)]) := by
  with_unfolding_all decide

example : evaluate_mota [(tb1, 1), (tb2, 2), (tb3, 4)]
    [(tb1, 11, 1), (tb2, 12, 1), (tb3, 13, 1)] (1/10)
    (some [(1, some 11), (2, some 12), (3, some 13)]) =
    Except.ok (2/3, [(1, some 11), (2, some 12), (4, some 13)]) := by
  with_unfolding_all decide

example : evaluate_mota [(tb1, 1), (tb2, 2), (tb3, 3)]
    [(tb1, 11, 1), (tb2, 13, 1), (tb3, 12, 1)] (1/10)
    (some [(1, some 11), (2, some 12), (3, some 13)]) =
    Except.ok (1/3, [(1, some 11), (2, some 13), (3, some 12)]) := by
  with_unfolding_all decide

theorem matchFrame_ok_of_nodup (gt : GTFrame) (pred : PredFrame) (thr : ℚ)
    (h : (pred.map (fun p => p.2.1)).Nodup) :
    ∃ m fp, matchFrame gt pred thr = Except.ok (m, fp) := by
  unfold matchFrame
  rw [if_pos h]
  exact ⟨_, _, rfl⟩

/-- C1: whenever the Frame Matcher succeeds on a frame with at least one
ground-truth object, `evaluate_mota` returns 1 minus the sum of false
negatives (missing entries of the current map), false positives (unmatched
predictions) and identity switches, divided by the number of ground-truth
objects; in particular, on the perfect-match frame of the unit tests
(identical boxes and a stable, non-conflicting id mapping) the returned MOTA
is exactly 1. -/
theorem evaluate_mota_contract :
    (∀ (gt : GTFrame) (pred : PredFrame) (thr : ℚ)
        (prevMap : Option IdentityMap) (curr : IdentityMap) (fp : Nat),
      gt ≠ [] →
      matchFrame gt pred thr = Except.ok (curr, fp) →
      evaluate_mota gt pred thr prevMap = Except.ok
        (1 - (((falseNegCount curr + fp +
            count_identity_switches prevMap curr : Nat) : ℚ)) /
          ((gt.length : Nat) : ℚ), curr)) ∧
    evaluate_mota [(tb1, 1), (tb2, 2), (tb3, 3)]
      [(tb1, 11, 1), (tb2, 12, 1), (tb3, 13, 1)] (1/10)
      (some [(1, some 11), (2, some 12), (3, some 13)]) =
      Except.ok (1, [(1, some 11), (2, some 12), (3, some 13)]) := by
  constructor
  · intro gt pred thr prevMap curr fp hne hmatch
    have hlen : ¬ gt.length = 0 := by simpa [List.length_eq_zero] using hne
    unfold evaluate_mota
    rw [hmatch]
    simp [hlen]
  · with_unfolding_all decide

/-- Witness for C1: the per-frame formula instantiated at a one-object frame
with no predictions (one false negative, so MOTA is 0 there). -/
theorem evaluate_mota_contract_witness :
    (([((tb1 : Box), 1)] : GTFrame) ≠ [] ∧
      matchFrame [(tb1, 1)] [] (1/2) = Except.ok ([(1, none)], 0)) ∧
    evaluate_mota [(tb1, 1)] [] (1/2) none = Except.ok
      (1 - (((falseNegCount [(1, none)] + 0 +
          count_identity_switches none [(1, none)] : Nat) : ℚ)) /
        ((([((tb1 : Box), 1)] : GTFrame).length : Nat) : ℚ), [(1, none)]) := by
  refine ⟨⟨by with_unfolding_all decide, by with_unfolding_all decide⟩, ?_⟩
  exact evaluate_mota_contract.1 [(tb1, 1)] [] (1/2) none [(1, none)] 0
    (by with_unfolding_all decide) (by with_unfolding_all decide)

theorem motaFold_ok (thr : ℚ) :
    ∀ (frames : List (GTFrame × PredFrame)) (prevMap : Option IdentityMap),
      (∀ f ∈ frames, (f.2.map (fun p => p.2.1)).Nodup) →
      ∃ e, motaFold thr frames prevMap =
        Except.ok (e, (frames.map (fun f => f.1.length)).sum) := by
  intro frames
  induction frames with
  | nil => exact fun _ _ => ⟨0, rfl⟩
  | cons f rest ih =>
    intro prevMap h
    obtain ⟨m, fp, hm⟩ :=
      matchFrame_ok_of_nodup f.1 f.2 thr (h f (List.mem_cons_self f rest))
    obtain ⟨e2, h2⟩ := ih (some m) (fun g hg => h g (List.mem_cons_of_mem f hg))
    refine ⟨falseNegCount m + fp + count_identity_switches prevMap m + e2, ?_⟩
    simp [motaFold, hm, h2]

/-- C6: a sequence whose total ground-truth object count is zero (every frame
passing the validity check on prediction track-ids) makes the MOTA
computation fail with the defined error, rather than produce any numeric
value. -/
theorem motaSequence_zero_gt (frames : List (GTFrame × PredFrame)) (thr : ℚ)
    (hval : ∀ f ∈ frames, (f.2.map (fun p => p.2.1)).Nodup)
    (h0 : (frames.map (fun f => f.1.length)).sum = 0) :
    motaSequence frames thr =
      Except.error ("undefined MOTA: no ground-truth objects") := by
  obtain ⟨e, he⟩ := motaFold_ok thr frames none hval
  rw [h0] at he
  unfold motaSequence
  rw [he]
  simp

/-- Witness for C6: the empty sequence. -/
theorem motaSequence_zero_gt_witness :
    ((∀ f ∈ ([] : List (GTFrame × PredFrame)),
        (f.2.map (fun p => p.2.1)).Nodup) ∧
      (([] : List (GTFrame × PredFrame)).map (fun f => f.1.length)).sum = 0) ∧
    motaSequence [] (1/2) =
      Except.error ("undefined MOTA: no ground-truth objects") := by
  refine ⟨⟨by simp, rfl⟩, ?_⟩
  exact motaSequence_zero_gt [] (1/2) (by simp) rfl

/-- C7: a prediction frame in which the same track-id appears twice makes the
Frame Matcher fail fast with its validation error, and no IdentityMap is
produced. -/
theorem matchFrame_duplicate_track_id (gt : GTFrame) (pred : PredFrame)
    (thr : ℚ) (h : ¬ (pred.map (fun p => p.2.1)).Nodup) :
    matchFrame gt pred thr =
      Except.error ("duplicate track-id in prediction frame") := by
  unfold matchFrame
  rw [if_neg h]

/-- Witness for C7: two predictions carrying the same track-id 11. -/
theorem matchFrame_duplicate_track_id_witness :
    ¬ (([(tb1, 11, 1), (tb2, 11, 1)] : PredFrame).map
        (fun p => p.2.1)).Nodup ∧
    matchFrame [(tb1, 1), (tb2, 2)] [(tb1, 11, 1), (tb2, 11, 1)] (1/10) =
      Except.error ("duplicate track-id in prediction frame") := by
  refine ⟨by with_unfolding_all decide, ?_⟩
  exact matchFrame_duplicate_track_id [(tb1, 1), (tb2, 2)]
    [(tb1, 11, 1), (tb2, 11, 1)] (1/10) (by with_unfolding_all decide)

end CrabsTracker

namespace CrabsDetection

/-- Translated from `collate_fn` in
`crabs/detection_tracking/detection_utils.py` (lines 170 to 210): the batch
is filtered of its `None` entries; when nothing remains the function returns
`None`; otherwise the remaining (image, annotation) samples are grouped
position-wise, the Python `tuple(zip(*batch))`, which for pair-shaped
samples is the pair of component lists. -/
def collate_fn {α β : Type} (batch : List (Option (α × β))) :
    Option (List α × List β) :=
  let kept := batch.filterMap id
  if kept.length = 0 then none
  else some (kept.map Prod.fst, kept.map Prod.snd)

/-- C9: `collate_fn` first discards the `None` samples; it returns `None`
exactly when no sample remains (the batch was empty or contained only `None`
values), and otherwise returns the position-wise zip of the remaining
samples in their original order (their unzip into component lists). -/
theorem collate_fn_spec {α β : Type} :
    (∀ batch : List (Option (α × β)),
      (collate_fn batch = none ↔ ∀ x ∈ batch, x = none)) ∧
    (∀ batch : List (Option (α × β)), batch.reduceOption ≠ [] →
      collate_fn batch = some batch.reduceOption.unzip) := by
  have hred : ∀ batch : List (Option (α × β)),
      batch.reduceOption = batch.filterMap id := fun _ => rfl
  constructor
  · intro batch
    simp only [collate_fn]
    split_ifs with h
    · rw [List.length_eq_zero, List.filterMap_eq_nil_iff] at h
      simp only [true_iff]
      intro x hx
      simpa using h x hx
    · rw [List.length_eq_zero, List.filterMap_eq_nil_iff] at h
      simp only [reduceCtorEq, false_iff]
      intro hall
      exact h (fun x hx => by simpa using hall x hx)
  · intro batch hne
    rw [hred] at hne
    unfold collate_fn
    rw [if_neg (by simpa [List.length_eq_zero] using hne)]
    rw [hred, List.unzip_eq_map]

/-- Witness for C9: a batch with two real samples and one `None`, collated to
the pair of component tuples, exactly the docstring example of the source. -/
theorem collate_fn_spec_witness :
    (([some (1, 10), none, some (2, 20)] :
        List (Option (Nat × Nat))).reduceOption ≠ [] ∧
      collate_fn [some (1, 10), none, some (2, 20)] =
        some ([1, 2], [10, 20])) ∧
    collate_fn ([none, none] : List (Option (Nat × Nat))) = none := by
  refine ⟨⟨by decide, ?_⟩, ?_⟩
  · have h := collate_fn_spec.2 [some (1, 10), none, some (2, 20)] (by decide)
    simpa using h
  · exact (collate_fn_spec.1 [none, none]).mpr (by decide)

end CrabsDetection

namespace BboxesLabelling

/-- The two exception kinds that `read_json_file` catches: Python `open`
raising `FileNotFoundError` and `json.load` raising `json.JSONDecodeError`. -/
inductive JsonReadError where
  | fileNotFound
  | decodeError
deriving DecidableEq, Repr

/-- The body of the `try` block of `read_json_file` in
`bboxes_labelling/utils.py`: the filesystem is modelled as a partial map
from paths to file contents (a missing path raises `FileNotFoundError`) and
the JSON parser as a function returning `none` on syntactically invalid
input (`JSONDecodeError`). -/
def openAndParse {J : Type} (fs : String → Option String)
    (parse : String → Option J) (path : String) : Except JsonReadError J :=
  match fs path with
  | none => Except.error JsonReadError.fileNotFound
  | some contents =>
    match parse contents with
    | none => Except.error JsonReadError.decodeError
    | some j => Except.ok j

/-- Translated from `read_json_file` in `bboxes_labelling/utils.py`
(lines 4 to 13): the try/except wrapper around open-and-parse, turning both
caught exceptions into `None` and passing a parsed value through. -/
def read_json_file {J : Type} (fs : String → Option String)
    (parse : String → Option J) (path : String) : Option J :=
  match openAndParse fs parse path with
  | Except.error JsonReadError.fileNotFound => none
  | Except.error JsonReadError.decodeError => none
  | Except.ok j => some j

/-- C10: `read_json_file` never propagates a missing-file or invalid-JSON
failure: it returns `None` when the file is absent, returns `None` when the
contents fail to parse, and returns the parsed value when the file exists
and parses successfully. -/
theorem read_json_file_spec {J : Type} (fs : String → Option String)
    (parse : String → Option J) (path : String) :
    (fs path = none → read_json_file fs parse path = none) ∧
    (∀ s, fs path = some s → parse s = none →
      read_json_file fs parse path = none) ∧
    (∀ s j, fs path = some s → parse s = some j →
      read_json_file fs parse path = some j) := by
  refine ⟨?_, ?_, ?_⟩
  · intro h
    simp [read_json_file, openAndParse, h]
  · intro s hs hp
    simp [read_json_file, openAndParse, hs, hp]
  · intro s j hs hp
    simp [read_json_file, openAndParse, hs, hp]

/-- Witness for C10: a missing file, an unparseable file, and a parseable
file, over concrete one-file filesystems. -/
theorem read_json_file_spec_witness :
    read_json_file (fun _ => none) (fun _ => (none : Option Nat))
      ("a.json") = none ∧
    read_json_file (fun _ => some ("oops")) (fun _ => (none : Option Nat))
      ("b.json") = none ∧
    read_json_file (fun _ => some ("5"))
      (fun s => if s = ("5") then some 5 else none)
      ("c.json") = some 5 := by
  refine ⟨?_, ?_, ?_⟩
  · exact (read_json_file_spec (fun _ => none) (fun _ => (none : Option Nat))
      ("a.json")).1 rfl
  · exact (read_json_file_spec (fun _ => some ("oops"))
      (fun _ => (none : Option Nat)) ("b.json")).2.1 ("oops") rfl rfl
  · exact (read_json_file_spec (fun _ => some ("5"))
      (fun s => if s = ("5") then some 5 else none)
      ("c.json")).2.2 ("5") 5 rfl (by simp)

end BboxesLabelling
